import Mathlib

/-!
Verification development for the face-presence and identity-continuity loop
of `src/face_detection.py`.

Conventions of the shallow embedding:
* Python floats are modelled exactly: timestamps and rectangle geometry as
  rationals, feature values and similarity scores as real numbers.
* The OpenCV call `cv2.groupRectangles(rects, 1, 0.3)` made by `detect_faces`
  is embedded following the OpenCV implementation of `groupRectangles`
  (partition into connected components of the pairwise similarity relation,
  average each component, reject components whose size is at most the group
  threshold, then drop surviving rectangles contained, with margin, in another
  surviving rectangle).  `saturate_cast<int>` of a double rounds to nearest
  (ties to even in OpenCV; Mathlib `round` breaks ties upward — no input used
  below sits on a tie).
* Image operations (`cv2.resize`, `equalizeHist`, ...) inside
  `extract_face_features` are external library code; the loop embedding takes
  the frame as an oracle `extract : Rect → Fin n → ℝ` giving the feature
  vector that extraction would produce for a face rectangle.
-/

namespace FaceDetection

/-! ## Temporal debouncer (lines 30, 177–182) -/

/-- Python `sum(detection_history)`: booleans count as 0 or 1. -/
def sumHist (w : List Bool) : ℕ :=
  (w.map (fun b => if b then 1 else 0)).sum

/-- Line 182: `face_detected = sum(detection_history) >= 2`. -/
def faceDetectedOf (w : List Bool) : Bool :=
  decide (2 ≤ sumHist w)

/-- Lines 178–179: `detection_history.pop(0)` then `append(b)`. -/
def debounceUpdate (w : List Bool) (b : Bool) : List Bool :=
  w.tail ++ [b]

theorem sumHist_eq_count (w : List Bool) : sumHist w = w.count true := by
  induction w with
  | nil => rfl
  | cons a l ih =>
    cases a <;> simp [sumHist, List.count_cons] at ih ⊢ <;> omega

/-! ## Rectangles and the OpenCV merge (lines 101–113) -/

/-- An axis-aligned detection rectangle `(x, y, w, h)` with integer
coordinates, as returned by `detectMultiScale`. -/
structure Rect where
  x : ℤ
  y : ℤ
  w : ℤ
  h : ℤ
deriving DecidableEq

/-- Rounded division `round (a / b)` for integers with `b > 0`:
since `/` on `ℤ` rounds toward negative infinity, `(2a + b) / (2b)` is
`floor (a/b + 1/2)`, the round-to-nearest of `a / b` (ties upward; OpenCV
`saturate_cast<int>` sends ties to even — no quantity in this development
ever sits on a tie). -/
def roundDiv (a b : ℤ) : ℤ :=
  (2 * a + b) / (2 * b)

/-- OpenCV `SimilarRects` predicate: the two rectangles agree on all four
sides within `delta = eps * (min(w1,w2) + min(h1,h2)) / 2`.  The tolerance
`eps = epsN / epsD` (with `epsD > 0`) is kept as a fraction and every
comparison `|d| ≤ delta` is multiplied through by `2 * epsD`, so the test
is exact integer arithmetic. -/
def similarRects (epsN epsD : ℤ) (a b : Rect) : Bool :=
  let s := epsN * (min a.w b.w + min a.h b.h)
  decide (2 * epsD * |a.x - b.x| ≤ s ∧
          2 * epsD * |a.y - b.y| ≤ s ∧
          2 * epsD * |a.x + a.w - (b.x + b.w)| ≤ s ∧
          2 * epsD * |a.y + a.h - (b.y + b.h)| ≤ s)

/-- Insert one rectangle into a list of similarity classes: every class
containing a rectangle similar to `r` is merged with `r` into one class. -/
def insertRect (epsN epsD : ℤ) (r : Rect) (groups : List (List Rect)) :
    List (List Rect) :=
  let p := groups.partition (fun g => g.any (fun s => similarRects epsN epsD r s))
  (r :: p.1.flatten) :: p.2

/-- Connected components of the `similarRects` graph, as computed by
OpenCV `partition` up to ordering. -/
def buildClasses (epsN epsD : ℤ) (rs : List Rect) : List (List Rect) :=
  rs.foldl (fun gs r => insertRect epsN epsD r gs) []

/-- Componentwise rounded average of a class of rectangles
(`saturate_cast<int>(sum * (1/n))` in OpenCV). -/
def avgRect (g : List Rect) : Rect :=
  let n : ℤ := g.length
  { x := roundDiv (g.map Rect.x).sum n
    y := roundDiv (g.map Rect.y).sum n
    w := roundDiv (g.map Rect.w).sum n
    h := roundDiv (g.map Rect.h).sum n }

/-- OpenCV final filter: `r1` lies inside `r2` enlarged by
`dx = round(w2 * eps)`, `dy = round(h2 * eps)`. -/
def insideWithMargin (epsN epsD : ℤ) (r1 r2 : Rect) : Bool :=
  let dx : ℤ := roundDiv (r2.w * epsN) epsD
  let dy : ℤ := roundDiv (r2.h * epsN) epsD
  decide (r2.x - dx ≤ r1.x ∧ r2.y - dy ≤ r1.y ∧
          r1.x + r1.w ≤ r2.x + r2.w + dx ∧
          r1.y + r1.h ≤ r2.y + r2.h + dy)

/-- OpenCV `groupRectangles(rectList, groupThreshold, eps)`:
if the threshold is zero or the list empty the list is returned unchanged;
otherwise similarity classes are averaged, classes of size at most
`groupThreshold` are rejected, and a surviving rectangle is dropped when
another surviving class contains it (with margin) and the weight condition
`n2 > max(3, n1) or n1 < 3` holds. -/
def groupRectangles (groupThreshold : ℕ) (epsN epsD : ℤ)
    (rectList : List Rect) : List Rect :=
  if groupThreshold = 0 ∨ rectList = [] then rectList
  else
    let classes := buildClasses epsN epsD rectList
    let cands := classes.map (fun g => (avgRect g, g.length))
    let survivors := cands.filter (fun p => decide (groupThreshold < p.2))
    let keep := fun (ip : ℕ × Rect × ℕ) =>
      !(survivors.enum.any (fun jq =>
          decide (jq.1 ≠ ip.1) && insideWithMargin epsN epsD ip.2.1 jq.2.1 &&
          (decide (max 3 ip.2.2 < jq.2.2) || decide (ip.2.2 < 3))))
    (survivors.enum.filter keep).map (fun ip => ip.2.1)

/-- Lines 101–113 of `detect_faces`: concatenate the candidate rectangles of
the three cascade profiles, then `cv2.groupRectangles(faces, 1, 0.3)`
(`eps = 0.3 = 3/10`). -/
def detectFacesMerge (faces1 faces2 faces3 : List Rect) : List Rect :=
  groupRectangles 1 3 10 (faces1 ++ faces2 ++ faces3)

/-! ## Identity verifier: `compare_faces` (lines 146–160)

Feature vectors are `Fin n → ℝ` (the code uses flattened 100 × 100 crops,
`n = 10000`); the embedding is parametric in `n`.  Python floats are
modelled as exact reals. -/

/-- `np.mean v`. -/
noncomputable def mean {n : ℕ} (v : Fin n → ℝ) : ℝ :=
  (∑ i, v i) / n

/-- `np.corrcoef(v, w)[0, 1]`.  numpy centres both vectors and returns
`cov(v,w) / (sqrt (var v) * sqrt (var w))`; the `1 / (len - 1)`
normalisation of `np.cov` cancels between numerator and denominator, so raw
centred sums are used.  A zero denominator (either vector constant, or
fewer than two samples) makes numpy return NaN, modelled as `none`. -/
noncomputable def corrcoef {n : ℕ} (v w : Fin n → ℝ) : Option ℝ :=
  let a := fun i => v i - mean v
  let b := fun i => w i - mean w
  let den := Real.sqrt (∑ i, a i ^ 2) * Real.sqrt (∑ i, b i ^ 2)
  if den = 0 then none else some ((∑ i, a i * b i) / den)

/-- Line 152: `mse = np.mean((features1 - features2) ** 2)`. -/
noncomputable def mseOf {n : ℕ} (v w : Fin n → ℝ) : ℝ :=
  (∑ i, (v i - w i) ^ 2) / n

/-- Lines 146–160, `compare_faces`: average of the correlation coefficient
and the normalised-MSE term `1 - min(1, mse / 0.5)`, clamped below by
`max(0, ·)`.  When the correlation is NaN (`none`), the NaN propagates
through the average and Python `max(0, nan)` keeps its first argument `0`. -/
noncomputable def compareFaces {n : ℕ} (v w : Fin n → ℝ) : ℝ :=
  let mseNormalized := 1 - min 1 (mseOf v w / (1/2))
  match corrcoef v w with
  | none => 0
  | some c => max 0 ((c + mseNormalized) / 2)

/-! ## Loop state and one iteration of the main loop (lines 162–271) -/

/-- Module-level mutable state read and written by the loop body
(lines 26–36): the five-slot detection history, the enrolled reference
feature vector, the last verification verdict, the absence-timer start and
the shared notification timestamp.  Timestamps are rationals (exact model
of `time.time()` values). -/
structure LoopState (n : ℕ) where
  detectionHistory : List Bool
  referenceFace : Option (Fin n → ℝ)
  isSamePerson : Bool
  similarityScore : ℝ
  faceMissingStartTime : Option ℚ
  lastNotificationTime : ℚ

/-- Line 28: `notification_cooldown = 3`. -/
def notificationCooldown : ℚ := 3

/-- Line 36: `verification_threshold = 0.7`. -/
noncomputable def verificationThreshold : ℝ := 7/10

/-- Lines 26–36: initial values of the module-level state. -/
noncomputable def initialState (n : ℕ) : LoopState n :=
  { detectionHistory := List.replicate 5 false
    referenceFace := none
    isSamePerson := true
    similarityScore := 0
    faceMissingStartTime := none
    lastNotificationTime := 0 }

/-- Observable side effects of one loop iteration (notifications dispatched
and log lines appended, both fire-and-forget threads in the code). -/
inductive AlertEvent where
  | faceNotDetected
  | logMissingFace
  | faceRegistered
  | differentPersonDetected
  | logDifferentPerson
deriving DecidableEq

/-- Which arm of the line-185 conditional the iteration executed
(observable through the status overlay the code draws). -/
inductive BranchTaken where
  | absence
  | verification
deriving DecidableEq

/-- Line 207: `max(faces, key=lambda rect: rect[2] * rect[3])` — first
rectangle of maximal area (Python `max` keeps the earliest maximum).  Only
applied to non-empty lists; the empty case returns a dummy rectangle. -/
def largestFace : List Rect → Rect
  | [] => ⟨0, 0, 0, 0⟩
  | r :: rs => rs.foldl (fun best c => if best.w * best.h < c.w * c.h then c else best) r

/-- Lines 172–233 of the main loop body, from the history update to the
alert gates (drawing and rendering omitted: they write only to the frame).
The frame is abstracted by the face rectangles the detection ensemble
returned for it and by the oracle `extract` giving the feature vector
`extract_face_features` would compute for a rectangle.  Returns the new
state, the dispatched alert events, and the branch taken. -/
noncomputable def loopStep {n : ℕ} (st : LoopState n) (currentTime : ℚ)
    (faces : List Rect) (extract : Rect → Fin n → ℝ) :
    LoopState n × List AlertEvent × BranchTaken :=
  -- lines 177–182
  let history := debounceUpdate st.detectionHistory (!faces.isEmpty)
  let faceDetected := faceDetectedOf history
  -- line 185: `if not face_detected or len(faces) == 0:`
  if ¬ faceDetected = true ∨ faces = [] then
    -- lines 186–197
    let missingStart := st.faceMissingStartTime.getD currentTime
    let fire := currentTime - missingStart > notificationCooldown ∧
                currentTime - st.lastNotificationTime > notificationCooldown
    ({ st with
        detectionHistory := history
        faceMissingStartTime := some missingStart
        lastNotificationTime :=
          if fire then currentTime else st.lastNotificationTime },
     if fire then [.faceNotDetected, .logMissingFace] else [],
     .absence)
  else
    -- lines 202–233
    let currentFeatures := extract (largestFace faces)
    match st.referenceFace with
    | none =>
        -- lines 212–221: first face becomes the reference
        ({ st with
            detectionHistory := history
            faceMissingStartTime := none
            referenceFace := some currentFeatures
            isSamePerson := true
            similarityScore := 1 },
         [.faceRegistered],
         .verification)
    | some ref =>
        -- lines 222–233: compare with the reference
        let score := compareFaces ref currentFeatures
        let same : Bool := if verificationThreshold ≤ score then true else false
        let fire := same = false ∧
                    currentTime - st.lastNotificationTime > notificationCooldown
        ({ st with
            detectionHistory := history
            faceMissingStartTime := none
            isSamePerson := same
            similarityScore := score
            lastNotificationTime :=
              if fire then currentTime else st.lastNotificationTime },
         if fire then [.differentPersonDetected, .logDifferentPerson] else [],
         .verification)

/-- Key commands recognised at lines 265–271: `q`, `r`, anything else. -/
inductive KeyCmd where
  | quit
  | reset
  | other
deriving DecidableEq

/-- Lines 266–271: `q` breaks out of the loop, `r` clears the reference
face without leaving the loop, any other key does nothing. -/
def handleKey {n : ℕ} (k : KeyCmd) (st : LoopState n) : Bool × LoopState n :=
  match k with
  | .quit => (true, st)
  | .reset => (false, { st with referenceFace := none })
  | .other => (false, st)

/-! ## Whole-program run: `try` / `except` / `finally` (lines 162–281) -/

/-- One cycle of external input to the loop: whether `cap.read()` returned a
frame, whether the body raises an unhandled exception this iteration, the
wall-clock time, the detected face rectangles, the feature oracle for this
frame, and the key pressed at the end of the iteration. -/
structure StepInput (n : ℕ) where
  ret : Bool
  raises : Bool
  time : ℚ
  faces : List Rect
  extract : Rect → Fin n → ℝ
  key : KeyCmd

/-- How control left the `while True` loop. -/
inductive ExitKind where
  | quit
  | exception
deriving DecidableEq

/-- Externally observable effects of the whole program. -/
inductive MainEvent where
  | stepEvents (evs : List AlertEvent)
  | frameGrabFailed
  | errorTracePrinted
  | cameraReleased
  | windowsDestroyed
deriving DecidableEq

/-- The `while True:` loop of lines 164–271 driven by a finite input trace.
Returns the emitted events and how (or whether) the loop terminated within
the trace: `some quit` for the `q` break, `some exception` for an unhandled
exception in an iteration body (modelled as raised at the start of that
iteration), `none` when the inputs ran out with the loop still running.
A failed frame grab prints, sleeps, and continues (lines 167–170). -/
noncomputable def runLoop {n : ℕ} :
    List (StepInput n) → LoopState n → List MainEvent × Option ExitKind
  | [], _ => ([], none)
  | inp :: rest, st =>
    if inp.raises then ([], some .exception)
    else if inp.ret = false then
      let r := runLoop rest st
      (.frameGrabFailed :: r.1, r.2)
    else
      let s := loopStep st inp.time inp.faces inp.extract
      let st1 := s.1
      match handleKey inp.key st1 with
      | (true, _) => ([.stepEvents s.2.1], some .quit)
      | (false, st2) =>
          let r := runLoop rest st2
          (.stepEvents s.2.1 :: r.1, r.2)

/-- Lines 162–281: the loop inside `try`, the `except` arm printing the
diagnostic trace, and the `finally` arm releasing the camera and destroying
the display windows.  The boolean records whether the process ended within
the supplied inputs (`false`: the loop is still running, so the `finally`
arm has not yet run). -/
noncomputable def runMain {n : ℕ} (inputs : List (StepInput n))
    (st : LoopState n) : List MainEvent × Bool :=
  match runLoop inputs st with
  | (evs, none) => (evs, false)
  | (evs, some .quit) =>
      (evs ++ [.cameraReleased, .windowsDestroyed], true)
  | (evs, some .exception) =>
      (evs ++ [.errorTracePrinted, .cameraReleased, .windowsDestroyed], true)

/-! ## Concrete sample inputs used by witnesses and counterexamples -/

/-- A 10 × 10 face rectangle at the origin. -/
def wRect : Rect := ⟨0, 0, 10, 10⟩

/-- A 10 × 10 rectangle far from `wRect` (no overlap). -/
def wRectFar : Rect := ⟨100, 100, 10, 10⟩

/-- The two-sample feature vector (0, 1). -/
noncomputable def v01 : Fin 2 → ℝ := fun j => if j = 0 then 0 else 1

/-- The two-sample feature vector (1, 0). -/
noncomputable def v10 : Fin 2 → ℝ := fun j => if j = 0 then 1 else 0

/-- Feature oracle returning `v01` for every rectangle. -/
noncomputable def extract01 : Rect → Fin 2 → ℝ := fun _ => v01

/-- Feature oracle returning `v10` for every rectangle. -/
noncomputable def extract10 : Rect → Fin 2 → ℝ := fun _ => v10

/-- Sample state: presence solidly confirmed, no enrolled reference. -/
noncomputable def wStateNoRef : LoopState 2 :=
  { detectionHistory := [true, true, true, true, true]
    referenceFace := none
    isSamePerson := true
    similarityScore := 0
    faceMissingStartTime := none
    lastNotificationTime := 0 }

/-- Sample state: presence solidly confirmed, reference `v01` enrolled. -/
noncomputable def wStateRef01 : LoopState 2 :=
  { detectionHistory := [true, true, true, true, true]
    referenceFace := some v01
    isSamePerson := true
    similarityScore := 1
    faceMissingStartTime := none
    lastNotificationTime := 0 }

/-- Sample state: face absent since time 0, last notification at time -10. -/
noncomputable def wStateAbsent : LoopState 2 :=
  { detectionHistory := [true, true, true, true, true]
    referenceFace := some v01
    isSamePerson := true
    similarityScore := 1
    faceMissingStartTime := some 0
    lastNotificationTime := -10 }

/-- Sample state whose history [F,T,T,F,F] still debounces to confirmed
presence after one more frame with no detection. -/
noncomputable def wStateMixedHist : LoopState 2 :=
  { detectionHistory := [false, true, true, false, false]
    referenceFace := none
    isSamePerson := true
    similarityScore := 0
    faceMissingStartTime := none
    lastNotificationTime := 0 }

/-- Sample input whose iteration body raises an unhandled exception. -/
noncomputable def wCrashInput : StepInput 2 :=
  { ret := true, raises := true, time := 0, faces := [],
    extract := extract01, key := KeyCmd.other }

/-! ## Theorems -/

/-- C1: one debouncer update on a 5-slot history removes the oldest entry
and appends the new boolean, so the window keeps exactly 5 entries; the
confirmed-presence signal equals (number of true entries ≥ 2); and the four
example windows FFFFF, TFFFF, TTFFF, TTTFF give false, false, true, true. -/
theorem temporal_debouncer_correct (w : List Bool) (b : Bool)
    (hw : w.length = 5) :
    (debounceUpdate w b).length = 5 ∧
    debounceUpdate w b = w.tail ++ [b] ∧
    (faceDetectedOf (debounceUpdate w b) = true ↔
      2 ≤ (debounceUpdate w b).count true) ∧
    faceDetectedOf [false, false, false, false, false] = false ∧
    faceDetectedOf [true, false, false, false, false] = false ∧
    faceDetectedOf [true, true, false, false, false] = true ∧
    faceDetectedOf [true, true, true, false, false] = true := by
  refine ⟨?_, rfl, ?_, by decide, by decide, by decide, by decide⟩
  · simp [debounceUpdate, hw]
  · simp [faceDetectedOf, sumHist_eq_count]

/-- Witness for C1 at the concrete window TTFFF with incoming `true`. -/
theorem temporal_debouncer_witness :
    ([true, true, false, false, false] : List Bool).length = 5 ∧
    ((debounceUpdate [true, true, false, false, false] true).length = 5 ∧
     debounceUpdate [true, true, false, false, false] true =
       ([true, true, false, false, false] : List Bool).tail ++ [true] ∧
     (faceDetectedOf (debounceUpdate [true, true, false, false, false] true) = true ↔
       2 ≤ (debounceUpdate [true, true, false, false, false] true).count true) ∧
     faceDetectedOf [false, false, false, false, false] = false ∧
     faceDetectedOf [true, false, false, false, false] = false ∧
     faceDetectedOf [true, true, false, false, false] = true ∧
     faceDetectedOf [true, true, true, false, false] = true) :=
  ⟨by decide, temporal_debouncer_correct [true, true, false, false, false] true (by decide)⟩

/-- C3 counterexample: a rectangle produced by a single detector profile,
with no overlapping near-duplicate, does NOT survive the merge — the
OpenCV call `groupRectangles(faces, 1, 0.3)` rejects similarity classes of
size ≤ 1, so a lone rectangle vanishes and two non-overlapping lone
rectangles yield an empty DetectionSet, not two regions. -/
theorem detection_merge_counterexample :
    detectFacesMerge [⟨0, 0, 10, 10⟩] [] [] = [] ∧
    detectFacesMerge [⟨0, 0, 10, 10⟩] [⟨100, 100, 10, 10⟩] [] = [] := by
  decide

/-- The OpenCV `SimilarRects` test is symmetric in its two rectangles. -/
theorem similarRects_comm (epsN epsD : ℤ) (a b : Rect) :
    similarRects epsN epsD a b = similarRects epsN epsD b a := by
  unfold similarRects
  simp only []
  rw [decide_eq_decide]
  rw [min_comm a.w b.w, min_comm a.h b.h, abs_sub_comm a.x b.x, abs_sub_comm a.y b.y,
      abs_sub_comm (a.x + a.w) (b.x + b.w), abs_sub_comm (a.y + a.h) (b.y + b.h)]

/-- C3 amended: two DISTINCT rectangles `r₁`, `r₂` from different detector
profiles that mutually overlap within the eps = 0.3 similarity tolerance
collapse into exactly one representative region — the rounded componentwise
average of their class — but a similarity class needs at least TWO
supporting detections to survive (`groupThreshold = 1` rejects classes of
size ≤ 1), so a rectangle seen by a single profile with no near-duplicate
is dropped. -/
theorem detection_merge_amended (r₁ r₂ s : Rect)
    (h12 : similarRects 3 10 r₁ r₂ = true)
    (h1s : similarRects 3 10 r₁ s = false)
    (h2s : similarRects 3 10 r₂ s = false) :
    detectFacesMerge [r₁] [r₂] [s] = [avgRect [r₂, r₁]] ∧
    detectFacesMerge [s] [] [] = [] := by
  have h21 : similarRects 3 10 r₂ r₁ = true := by
    rw [similarRects_comm]
    exact h12
  have hs1 : similarRects 3 10 s r₁ = false := by
    rw [similarRects_comm]
    exact h1s
  have hs2 : similarRects 3 10 s r₂ = false := by
    rw [similarRects_comm]
    exact h2s
  constructor
  · simp [detectFacesMerge, groupRectangles, buildClasses, insertRect, h21, hs1, hs2,
          List.enum]
  · simp [detectFacesMerge, groupRectangles, buildClasses, insertRect]

/-- Witness for the amended C3 at two distinct overlapping rectangles
(0,0,10,10) and (2,1,10,11): they collapse into the single averaged region
(1,1,10,11), while the far-away lone rectangle is dropped. -/
theorem detection_merge_amended_witness :
    (similarRects 3 10 ⟨0, 0, 10, 10⟩ ⟨2, 1, 10, 11⟩ = true ∧
     similarRects 3 10 ⟨0, 0, 10, 10⟩ ⟨100, 100, 10, 10⟩ = false ∧
     similarRects 3 10 ⟨2, 1, 10, 11⟩ ⟨100, 100, 10, 10⟩ = false) ∧
    (detectFacesMerge [⟨0, 0, 10, 10⟩] [⟨2, 1, 10, 11⟩] [⟨100, 100, 10, 10⟩] =
       [avgRect [⟨2, 1, 10, 11⟩, ⟨0, 0, 10, 10⟩]] ∧
     detectFacesMerge [⟨100, 100, 10, 10⟩] [] [] = []) :=
  ⟨⟨by decide, by decide, by decide⟩,
   detection_merge_amended ⟨0, 0, 10, 10⟩ ⟨2, 1, 10, 11⟩ ⟨100, 100, 10, 10⟩
     (by decide) (by decide) (by decide)⟩

/-- When the correlation is NaN (`none`), `compare_faces` returns 0. -/
theorem compareFaces_none {n : ℕ} (v w : Fin n → ℝ) (h : corrcoef v w = none) :
    compareFaces v w = 0 := by
  unfold compareFaces
  rw [h]

/-- When the correlation is a number `c`, `compare_faces` returns the
clamped average of `c` and the normalised-MSE term. -/
theorem compareFaces_some {n : ℕ} (v w : Fin n → ℝ) (c : ℝ)
    (h : corrcoef v w = some c) :
    compareFaces v w = max 0 ((c + (1 - min 1 (mseOf v w / (1/2)))) / 2) := by
  unfold compareFaces
  rw [h]

/-- Cauchy–Schwarz: a defined correlation coefficient is at most 1. -/
theorem corrcoef_le_one {n : ℕ} (v w : Fin n → ℝ) (c : ℝ)
    (hc : corrcoef v w = some c) : c ≤ 1 := by
  unfold corrcoef at hc
  simp only [] at hc
  set Sa := ∑ i, (v i - mean v) ^ 2 with hSa
  set Sb := ∑ i, (w i - mean w) ^ 2 with hSb
  by_cases hden : Real.sqrt Sa * Real.sqrt Sb = 0
  · rw [if_pos hden] at hc
    exact absurd hc (by simp)
  · rw [if_neg hden] at hc
    have hc2 : (∑ i, (v i - mean v) * (w i - mean w)) / (Real.sqrt Sa * Real.sqrt Sb) = c := by
      simpa using hc
    have hSa0 : 0 ≤ Sa := Finset.sum_nonneg fun i _ => sq_nonneg _
    have hSb0 : 0 ≤ Sb := Finset.sum_nonneg fun i _ => sq_nonneg _
    have hdpos : 0 < Real.sqrt Sa * Real.sqrt Sb :=
      lt_of_le_of_ne (mul_nonneg (Real.sqrt_nonneg _) (Real.sqrt_nonneg _)) (Ne.symm hden)
    have hnum : (∑ i, (v i - mean v) * (w i - mean w)) ≤ Real.sqrt Sa * Real.sqrt Sb := by
      have h1 : (∑ i, (v i - mean v) * (w i - mean w)) ≤
          |∑ i, (v i - mean v) * (w i - mean w)| := le_abs_self _
      have h2 : |∑ i, (v i - mean v) * (w i - mean w)| =
          Real.sqrt ((∑ i, (v i - mean v) * (w i - mean w)) ^ 2) :=
        (Real.sqrt_sq_eq_abs _).symm
      have h3 : (∑ i, (v i - mean v) * (w i - mean w)) ^ 2 ≤ Sa * Sb :=
        Finset.sum_mul_sq_le_sq_mul_sq Finset.univ _ _
      have h4 : Real.sqrt ((∑ i, (v i - mean v) * (w i - mean w)) ^ 2) ≤
          Real.sqrt (Sa * Sb) := Real.sqrt_le_sqrt h3
      have h5 : Real.sqrt (Sa * Sb) = Real.sqrt Sa * Real.sqrt Sb :=
        Real.sqrt_mul hSa0 _
      linarith [h1, h2.le, h2.ge, h4]
    rw [← hc2]
    exact div_le_one_of_le₀ hnum hdpos.le

/-- C5: for every pair of input feature vectors the similarity score of
`compare_faces` lies in the unit interval: the `max(0, ·)` clamp gives the
lower bound, and the upper bound follows from correlation ≤ 1
(Cauchy–Schwarz) together with `min(1, mse/0.5) ≥ 0`; the NaN branch
(constant input, where Python `max(0, nan)` yields 0) also lands in the
interval. -/
theorem similarity_score_unit_interval {n : ℕ} (v w : Fin n → ℝ) :
    0 ≤ compareFaces v w ∧ compareFaces v w ≤ 1 := by
  cases hc : corrcoef v w with
  | none => rw [compareFaces_none v w hc]; norm_num
  | some c =>
      rw [compareFaces_some v w c hc]
      refine ⟨le_max_left _ _, ?_⟩
      have h1 : c ≤ 1 := corrcoef_le_one v w c hc
      have hmse : 0 ≤ mseOf v w := by
        unfold mseOf
        exact div_nonneg (Finset.sum_nonneg fun i _ => sq_nonneg _) (Nat.cast_nonneg n)
      have hmin : 0 ≤ min 1 (mseOf v w / (1/2)) :=
        le_min (by norm_num) (by positivity)
      have : (c + (1 - min 1 (mseOf v w / (1/2)))) / 2 ≤ 1 := by linarith
      exact max_le (by norm_num) this

/-- C4 amended: for identical feature vectors that are NOT constant
(nonzero centred sum of squares) `compare_faces` returns exactly 1:
the correlation is 1, the MSE is 0 so the normalised-MSE term is 1, and
the average is 1.  (For constant vectors the correlation denominator is 0,
numpy produces NaN, and the code returns 0 instead — see the
counterexample.) -/
theorem identical_similarity_amended {n : ℕ} (v : Fin n → ℝ)
    (hvar : (∑ i, (v i - mean v) ^ 2) ≠ 0) :
    compareFaces v v = 1 := by
  have hS0 : 0 ≤ ∑ i, (v i - mean v) ^ 2 :=
    Finset.sum_nonneg fun i _ => sq_nonneg _
  have hcorr : corrcoef v v = some 1 := by
    unfold corrcoef
    simp only []
    rw [Real.mul_self_sqrt hS0, if_neg hvar]
    congr 1
    have hnum : (∑ i, (v i - mean v) * (v i - mean v)) = ∑ i, (v i - mean v) ^ 2 := by
      simp_rw [← sq]
    rw [hnum, div_self hvar]
  have hmse : mseOf v v = 0 := by
    unfold mseOf
    simp
  rw [compareFaces_some v v 1 hcorr, hmse]
  norm_num

/-- C4 counterexample: for the all-zero feature vector (a vector
`extract_face_features` really produces on an all-black crop) compared with
itself, `compare_faces` returns 0, not 1: the correlation denominator is
zero, numpy yields NaN, and Python `max(0, nan)` keeps 0. -/
theorem identical_similarity_counterexample :
    compareFaces (fun _ : Fin 10000 => (0 : ℝ)) (fun _ : Fin 10000 => (0 : ℝ)) = 0 ∧
    compareFaces (fun _ : Fin 10000 => (0 : ℝ)) (fun _ : Fin 10000 => (0 : ℝ)) ≠ 1 := by
  have h : corrcoef (fun _ : Fin 10000 => (0 : ℝ)) (fun _ : Fin 10000 => (0 : ℝ)) = none := by
    unfold corrcoef
    simp [mean]
  rw [compareFaces_none _ _ h]
  norm_num

/-- Witness for the amended C4 at the non-constant vector (0, 1). -/
theorem identical_similarity_witness :
    ((∑ i, ((fun j : Fin 2 => if j = 0 then (0 : ℝ) else 1) i -
        mean (fun j : Fin 2 => if j = 0 then (0 : ℝ) else 1)) ^ 2) ≠ 0) ∧
    compareFaces (fun j : Fin 2 => if j = 0 then (0 : ℝ) else 1)
      (fun j : Fin 2 => if j = 0 then (0 : ℝ) else 1) = 1 :=
  ⟨by simp [mean, Fin.sum_univ_two]; norm_num,
   identical_similarity_amended _ (by simp [mean, Fin.sum_univ_two]; norm_num)⟩

/-- Unfolding equation for `loopStep` on the no-face arm (line 185 true). -/
theorem loopStep_absence_eq {n : ℕ} (st : LoopState n) (t : ℚ)
    (faces : List Rect) (extract : Rect → Fin n → ℝ)
    (h : ¬ faceDetectedOf (debounceUpdate st.detectionHistory (!faces.isEmpty)) = true ∨
         faces = []) :
    loopStep st t faces extract =
      ({ st with
          detectionHistory := debounceUpdate st.detectionHistory (!faces.isEmpty)
          faceMissingStartTime := some (st.faceMissingStartTime.getD t)
          lastNotificationTime :=
            if t - st.faceMissingStartTime.getD t > notificationCooldown ∧
               t - st.lastNotificationTime > notificationCooldown
            then t else st.lastNotificationTime },
       if t - st.faceMissingStartTime.getD t > notificationCooldown ∧
          t - st.lastNotificationTime > notificationCooldown
       then [AlertEvent.faceNotDetected, AlertEvent.logMissingFace] else [],
       BranchTaken.absence) := by
  unfold loopStep
  rw [if_pos h]

/-- Unfolding equation for `loopStep` on the enrollment arm
(face confirmed, reference unset). -/
theorem loopStep_enroll_eq {n : ℕ} (st : LoopState n) (t : ℚ)
    (faces : List Rect) (extract : Rect → Fin n → ℝ)
    (href : st.referenceFace = none)
    (hfd : faceDetectedOf (debounceUpdate st.detectionHistory (!faces.isEmpty)) = true)
    (hne : faces ≠ []) :
    loopStep st t faces extract =
      ({ st with
          detectionHistory := debounceUpdate st.detectionHistory (!faces.isEmpty)
          faceMissingStartTime := none
          referenceFace := some (extract (largestFace faces))
          isSamePerson := true
          similarityScore := 1 },
       [AlertEvent.faceRegistered],
       BranchTaken.verification) := by
  have hcond : ¬ (¬ faceDetectedOf (debounceUpdate st.detectionHistory (!faces.isEmpty)) = true ∨
      faces = []) := by
    push_neg
    exact ⟨hfd, hne⟩
  unfold loopStep
  rw [if_neg hcond, href]

/-- Unfolding equation for `loopStep` on the comparison arm
(face confirmed, reference set). -/
theorem loopStep_compare_eq {n : ℕ} (st : LoopState n) (ref : Fin n → ℝ) (t : ℚ)
    (faces : List Rect) (extract : Rect → Fin n → ℝ)
    (href : st.referenceFace = some ref)
    (hfd : faceDetectedOf (debounceUpdate st.detectionHistory (!faces.isEmpty)) = true)
    (hne : faces ≠ []) :
    loopStep st t faces extract =
      ({ st with
          detectionHistory := debounceUpdate st.detectionHistory (!faces.isEmpty)
          faceMissingStartTime := none
          isSamePerson :=
            if verificationThreshold ≤ compareFaces ref (extract (largestFace faces))
            then true else false
          similarityScore := compareFaces ref (extract (largestFace faces))
          lastNotificationTime :=
            if (if verificationThreshold ≤ compareFaces ref (extract (largestFace faces))
                then true else false) = false ∧
               t - st.lastNotificationTime > notificationCooldown
            then t else st.lastNotificationTime },
       if (if verificationThreshold ≤ compareFaces ref (extract (largestFace faces))
           then true else false) = false ∧
          t - st.lastNotificationTime > notificationCooldown
       then [AlertEvent.differentPersonDetected, AlertEvent.logDifferentPerson] else [],
       BranchTaken.verification) := by
  have hcond : ¬ (¬ faceDetectedOf (debounceUpdate st.detectionHistory (!faces.isEmpty)) = true ∨
      faces = []) := by
    push_neg
    exact ⟨hfd, hne⟩
  unfold loopStep
  rw [if_neg hcond, href]

/-- C2 amended: the verification path is taken exactly when the debounced
signal is confirmed AND the current frame produced at least one face
rectangle; the path is NOT decided by the debounced signal alone, because
line 185 also tests `len(faces) == 0`. -/
theorem branch_selection_amended {n : ℕ} (st : LoopState n) (t : ℚ)
    (faces : List Rect) (extract : Rect → Fin n → ℝ) :
    (loopStep st t faces extract).2.2 = BranchTaken.verification ↔
      (faceDetectedOf (debounceUpdate st.detectionHistory (!faces.isEmpty)) = true ∧
       faces ≠ []) := by
  by_cases h : ¬ faceDetectedOf (debounceUpdate st.detectionHistory (!faces.isEmpty)) = true ∨
      faces = []
  · rw [loopStep_absence_eq st t faces extract h]
    constructor
    · intro hc
      exact absurd hc (by simp)
    · rintro ⟨h1, h2⟩
      rcases h with h | h
      · exact absurd h1 h
      · exact absurd h h2
  · push_neg at h
    rcases href : st.referenceFace with _ | ref
    · rw [loopStep_enroll_eq st t faces extract href h.1 h.2]
      simp [h.1, h.2]
    · rw [loopStep_compare_eq st ref t faces extract href h.1 h.2]
      simp [h.1, h.2]

/-- C2 counterexample: with prior history [F,T,T,F,F] and a frame with no
detected face, the updated window [T,T,F,F,F] still debounces to confirmed
presence (two true entries), yet the code takes the absence-alert path
because `len(faces) == 0` — so the branch is not decided by the debounced
signal alone. -/
theorem branch_selection_counterexample :
    faceDetectedOf (debounceUpdate [false, true, true, false, false] false) = true ∧
    (loopStep wStateMixedHist 0 [] extract01).2.2 = BranchTaken.absence := by
  refine ⟨by decide, ?_⟩
  unfold loopStep
  rw [if_pos (Or.inr rfl)]

/-- C6: on a verification-path frame with no enrolled reference, the
extracted vector of the dominant face becomes the reference, the reported
state is score 1 and same-person true, exactly the one-time registered
notification is signalled, and the notification timestamp (hence any
comparison machinery) is untouched. -/
theorem enrollment_on_first_confirmed {n : ℕ} (st : LoopState n) (t : ℚ)
    (faces : List Rect) (extract : Rect → Fin n → ℝ)
    (href : st.referenceFace = none)
    (hfd : faceDetectedOf (debounceUpdate st.detectionHistory (!faces.isEmpty)) = true)
    (hne : faces ≠ []) :
    (loopStep st t faces extract).2.2 = BranchTaken.verification ∧
    (loopStep st t faces extract).1.referenceFace = some (extract (largestFace faces)) ∧
    (loopStep st t faces extract).1.similarityScore = 1 ∧
    (loopStep st t faces extract).1.isSamePerson = true ∧
    (loopStep st t faces extract).2.1 = [AlertEvent.faceRegistered] ∧
    (loopStep st t faces extract).1.lastNotificationTime = st.lastNotificationTime := by
  rw [loopStep_enroll_eq st t faces extract href hfd hne]
  exact ⟨rfl, rfl, rfl, rfl, rfl, rfl⟩

/-- Witness for C6 at a concrete confirmed-presence state with no
reference. -/
theorem enrollment_witness :
    (wStateNoRef.referenceFace = none ∧
     faceDetectedOf (debounceUpdate wStateNoRef.detectionHistory
       (!([wRect] : List Rect).isEmpty)) = true ∧
     ([wRect] : List Rect) ≠ []) ∧
    ((loopStep wStateNoRef 7 [wRect] extract01).2.2 = BranchTaken.verification ∧
     (loopStep wStateNoRef 7 [wRect] extract01).1.referenceFace =
       some (extract01 (largestFace [wRect])) ∧
     (loopStep wStateNoRef 7 [wRect] extract01).1.similarityScore = 1 ∧
     (loopStep wStateNoRef 7 [wRect] extract01).1.isSamePerson = true ∧
     (loopStep wStateNoRef 7 [wRect] extract01).2.1 = [AlertEvent.faceRegistered] ∧
     (loopStep wStateNoRef 7 [wRect] extract01).1.lastNotificationTime =
       wStateNoRef.lastNotificationTime) :=
  ⟨⟨rfl, by decide, by decide⟩,
   enrollment_on_first_confirmed wStateNoRef 7 [wRect] extract01 rfl (by decide) (by decide)⟩

/-- C7: the r command clears the reference without quitting the loop, and
the next verification-path frame re-enrolls the freshly extracted vector
unconditionally — events show only the registered signal, no
different-person comparison — even though an old reference existed and
presence was confirmed throughout. -/
theorem reset_reenrolls {n : ℕ} (st : LoopState n) (oldRef : Fin n → ℝ)
    (t : ℚ) (faces : List Rect) (extract : Rect → Fin n → ℝ)
    (_hold : st.referenceFace = some oldRef)
    (hfd : faceDetectedOf (debounceUpdate st.detectionHistory (!faces.isEmpty)) = true)
    (hne : faces ≠ []) :
    (handleKey KeyCmd.reset st).1 = false ∧
    (handleKey KeyCmd.reset st).2.referenceFace = none ∧
    (loopStep (handleKey KeyCmd.reset st).2 t faces extract).1.referenceFace =
      some (extract (largestFace faces)) ∧
    (loopStep (handleKey KeyCmd.reset st).2 t faces extract).1.similarityScore = 1 ∧
    (loopStep (handleKey KeyCmd.reset st).2 t faces extract).2.1 =
      [AlertEvent.faceRegistered] := by
  have h2 : (handleKey KeyCmd.reset st).2 = { st with referenceFace := none } := rfl
  rw [h2, loopStep_enroll_eq { st with referenceFace := none } t faces extract rfl hfd hne]
  exact ⟨rfl, rfl, rfl, rfl, rfl⟩

/-- Witness for C7 at a concrete state holding an old reference. -/
theorem reset_reenrolls_witness :
    (wStateRef01.referenceFace = some v01 ∧
     faceDetectedOf (debounceUpdate wStateRef01.detectionHistory
       (!([wRect] : List Rect).isEmpty)) = true ∧
     ([wRect] : List Rect) ≠ []) ∧
    ((handleKey KeyCmd.reset wStateRef01).1 = false ∧
     (handleKey KeyCmd.reset wStateRef01).2.referenceFace = none ∧
     (loopStep (handleKey KeyCmd.reset wStateRef01).2 7 [wRect] extract10).1.referenceFace =
       some (extract10 (largestFace [wRect])) ∧
     (loopStep (handleKey KeyCmd.reset wStateRef01).2 7 [wRect] extract10).1.similarityScore = 1 ∧
     (loopStep (handleKey KeyCmd.reset wStateRef01).2 7 [wRect] extract10).2.1 =
       [AlertEvent.faceRegistered]) :=
  ⟨⟨rfl, by decide, by decide⟩,
   reset_reenrolls wStateRef01 v01 7 [wRect] extract10 rfl (by decide) (by decide)⟩

/-- Evaluation of `compare_faces` at the opposite vectors (0,1) and (1,0):
correlation -1, MSE 1, so the clamped average is 0. -/
theorem compareFaces_v01_v10 : compareFaces v01 v10 = 0 := by
  have hmean01 : mean v01 = 1/2 := by
    simp [mean, v01, Fin.sum_univ_two]
  have hmean10 : mean v10 = 1/2 := by
    simp [mean, v10, Fin.sum_univ_two]
  have hs : Real.sqrt (1/2 : ℝ) * Real.sqrt (1/2 : ℝ) = 1/2 :=
    Real.mul_self_sqrt (by norm_num)
  have ha : (∑ i, (v01 i - 1/2) ^ 2) = (1/2 : ℝ) := by
    rw [Fin.sum_univ_two]
    simp [v01]
    norm_num
  have hb : (∑ i, (v10 i - 1/2) ^ 2) = (1/2 : ℝ) := by
    rw [Fin.sum_univ_two]
    simp [v10]
    norm_num
  have hab : (∑ i, (v01 i - 1/2) * (v10 i - 1/2)) = (-(1/2) : ℝ) := by
    rw [Fin.sum_univ_two]
    simp [v01, v10]
    norm_num
  have hc : corrcoef v01 v10 = some (-1) := by
    unfold corrcoef
    simp only []
    rw [hmean01, hmean10, ha, hb, hab, hs, if_neg (by norm_num : (1/2 : ℝ) ≠ 0)]
    norm_num
  have hmse : mseOf v01 v10 = 1 := by
    unfold mseOf
    rw [Fin.sum_univ_two]
    simp [v01, v10]
  rw [compareFaces_some v01 v10 (-1) hc, hmse]
  norm_num

/-- C8: both alert gates test and update the single shared
`last_notification_time`.  If an absence alert fires at `t₁` (absence timer
and cooldown both elapsed) and an identity-mismatch condition qualifies at
`t₂` with `t₂ - t₁` within the cooldown (e.g. 1 s later), the first step
dispatches exactly the face-missing notification and log record and stamps
`t₁` into the shared timestamp, and the second step dispatches nothing —
the mismatch alert is suppressed until the cooldown elapses from `t₁`. -/
theorem shared_alert_throttle {n : ℕ} (st : LoopState n) (ref : Fin n → ℝ)
    (m t₁ t₂ : ℚ) (faces₂ : List Rect) (ex₁ ex₂ : Rect → Fin n → ℝ)
    (hmiss : st.faceMissingStartTime = some m)
    (habs : t₁ - m > notificationCooldown)
    (hlast : t₁ - st.lastNotificationTime > notificationCooldown)
    (href : st.referenceFace = some ref)
    (hgap : t₂ - t₁ ≤ notificationCooldown)
    (hfd₂ : faceDetectedOf (debounceUpdate
        (debounceUpdate st.detectionHistory false) (!faces₂.isEmpty)) = true)
    (hne₂ : faces₂ ≠ [])
    (_hmm : compareFaces ref (ex₂ (largestFace faces₂)) < verificationThreshold) :
    (loopStep st t₁ [] ex₁).2.1 =
      [AlertEvent.faceNotDetected, AlertEvent.logMissingFace] ∧
    (loopStep st t₁ [] ex₁).1.lastNotificationTime = t₁ ∧
    (loopStep (loopStep st t₁ [] ex₁).1 t₂ faces₂ ex₂).2.1 = [] := by
  have hstep1 := loopStep_absence_eq st t₁ [] ex₁ (Or.inr rfl)
  rw [hmiss] at hstep1
  have hfire1 : t₁ - (Option.getD (some m) t₁) > notificationCooldown ∧
      t₁ - st.lastNotificationTime > notificationCooldown := by
    simp only [Option.getD]
    exact ⟨habs, hlast⟩
  rw [if_pos hfire1, if_pos hfire1] at hstep1
  rw [hstep1]
  refine ⟨rfl, rfl, ?_⟩
  have hstep2 := loopStep_compare_eq
    ({ st with
        detectionHistory := debounceUpdate st.detectionHistory (!([] : List Rect).isEmpty),
        faceMissingStartTime := some ((some m).getD t₁),
        lastNotificationTime := t₁ } : LoopState n)
    ref t₂ faces₂ ex₂ href hfd₂ hne₂
  rw [hstep2]
  dsimp only
  have hnofire : ¬ ((if verificationThreshold ≤ compareFaces ref (ex₂ (largestFace faces₂))
      then true else false) = false ∧
      t₂ - t₁ > notificationCooldown) := by
    rintro ⟨_, hgt⟩
    exact absurd hgt (not_lt.mpr hgap)
  rw [if_neg hnofire]

/-- Witness for C8: absence alert fires at time 4 (absent since 0, last
notification at -10), a genuine mismatch (score 0 against threshold 0.7)
arrives 1 s later at time 5 and dispatches nothing. -/
theorem shared_throttle_witness :
    (wStateAbsent.faceMissingStartTime = some 0 ∧
     (4 : ℚ) - 0 > notificationCooldown ∧
     (4 : ℚ) - wStateAbsent.lastNotificationTime > notificationCooldown ∧
     wStateAbsent.referenceFace = some v01 ∧
     (5 : ℚ) - 4 ≤ notificationCooldown ∧
     faceDetectedOf (debounceUpdate (debounceUpdate wStateAbsent.detectionHistory false)
       (!([wRect] : List Rect).isEmpty)) = true ∧
     ([wRect] : List Rect) ≠ [] ∧
     compareFaces v01 (extract10 (largestFace [wRect])) < verificationThreshold) ∧
    ((loopStep wStateAbsent 4 [] extract01).2.1 =
       [AlertEvent.faceNotDetected, AlertEvent.logMissingFace] ∧
     (loopStep wStateAbsent 4 [] extract01).1.lastNotificationTime = 4 ∧
     (loopStep (loopStep wStateAbsent 4 [] extract01).1 5 [wRect] extract10).2.1 = []) :=
  ⟨⟨rfl, by norm_num [notificationCooldown],
    by norm_num [wStateAbsent, notificationCooldown], rfl,
    by norm_num [notificationCooldown], by decide, by decide,
    by simp [extract10, compareFaces_v01_v10, verificationThreshold]⟩,
   shared_alert_throttle wStateAbsent v01 0 4 5 [wRect] extract01 extract10 rfl
     (by norm_num [notificationCooldown])
     (by norm_num [wStateAbsent, notificationCooldown]) rfl
     (by norm_num [notificationCooldown]) (by decide) (by decide)
     (by simp [extract10, compareFaces_v01_v10, verificationThreshold])⟩

/-- C10 (implicit): the one-time registered notification at enrollment is
not gated by the cooldown — it is dispatched even when the cooldown window
of a previous alert has not elapsed — and it leaves the shared
`last_notification_time` untouched, so a later qualifying mismatch alert
still fires (registration never suppresses it). -/
theorem registration_not_throttled {n : ℕ} (st : LoopState n) (t : ℚ)
    (faces : List Rect) (extract : Rect → Fin n → ℝ)
    (href : st.referenceFace = none)
    (hfd : faceDetectedOf (debounceUpdate st.detectionHistory (!faces.isEmpty)) = true)
    (hne : faces ≠ [])
    (_hcool : t - st.lastNotificationTime ≤ notificationCooldown) :
    (loopStep st t faces extract).2.1 = [AlertEvent.faceRegistered] ∧
    (loopStep st t faces extract).1.lastNotificationTime = st.lastNotificationTime ∧
    (∀ t₂ faces₂ ex₂,
      faceDetectedOf (debounceUpdate (debounceUpdate st.detectionHistory (!faces.isEmpty))
        (!faces₂.isEmpty)) = true →
      faces₂ ≠ [] →
      compareFaces (extract (largestFace faces)) (ex₂ (largestFace faces₂)) <
        verificationThreshold →
      t₂ - st.lastNotificationTime > notificationCooldown →
      (loopStep (loopStep st t faces extract).1 t₂ faces₂ ex₂).2.1 =
        [AlertEvent.differentPersonDetected, AlertEvent.logDifferentPerson]) := by
  rw [loopStep_enroll_eq st t faces extract href hfd hne]
  refine ⟨rfl, rfl, ?_⟩
  intro t₂ faces₂ ex₂ hfd₂ hne₂ hmm hq
  dsimp only
  have hstep2 := loopStep_compare_eq
    ({ st with
        detectionHistory := debounceUpdate st.detectionHistory (!faces.isEmpty),
        faceMissingStartTime := none,
        referenceFace := some (extract (largestFace faces)),
        isSamePerson := true,
        similarityScore := 1 } : LoopState n)
    (extract (largestFace faces)) t₂ faces₂ ex₂ rfl hfd₂ hne₂
  rw [hstep2]
  dsimp only
  have hsame : (if verificationThreshold ≤
      compareFaces (extract (largestFace faces)) (ex₂ (largestFace faces₂))
      then true else false) = false := by
    rw [if_neg (not_le.mpr hmm)]
  rw [if_pos ⟨hsame, hq⟩]

/-- Witness for C10: enrollment at time 1 with the last notification at
time 0 — well inside the 3 s cooldown — still emits the registered event
and leaves the shared timestamp at 0. -/
theorem registration_witness :
    (wStateNoRef.referenceFace = none ∧
     faceDetectedOf (debounceUpdate wStateNoRef.detectionHistory
       (!([wRect] : List Rect).isEmpty)) = true ∧
     ([wRect] : List Rect) ≠ [] ∧
     (1 : ℚ) - wStateNoRef.lastNotificationTime ≤ notificationCooldown) ∧
    ((loopStep wStateNoRef 1 [wRect] extract01).2.1 = [AlertEvent.faceRegistered] ∧
     (loopStep wStateNoRef 1 [wRect] extract01).1.lastNotificationTime =
       wStateNoRef.lastNotificationTime ∧
     (∀ t₂ faces₂ ex₂,
       faceDetectedOf (debounceUpdate
         (debounceUpdate wStateNoRef.detectionHistory (!([wRect] : List Rect).isEmpty))
         (!faces₂.isEmpty)) = true →
       faces₂ ≠ [] →
       compareFaces (extract01 (largestFace [wRect])) (ex₂ (largestFace faces₂)) <
         verificationThreshold →
       t₂ - wStateNoRef.lastNotificationTime > notificationCooldown →
       (loopStep (loopStep wStateNoRef 1 [wRect] extract01).1 t₂ faces₂ ex₂).2.1 =
         [AlertEvent.differentPersonDetected, AlertEvent.logDifferentPerson])) :=
  ⟨⟨rfl, by decide, by decide, by norm_num [wStateNoRef, notificationCooldown]⟩,
   registration_not_throttled wStateNoRef 1 [wRect] extract01 rfl (by decide) (by decide)
     (by norm_num [wStateNoRef, notificationCooldown])⟩

/-- C9: whenever the process ends — by the quit command or by an unhandled
exception in the loop body (caught at the outermost level, after which the
diagnostic trace is printed) — the emitted event trace ends with the camera
release followed by the window destruction. -/
theorem cleanup_on_exit {n : ℕ} (inputs : List (StepInput n)) (st : LoopState n)
    (h : (runMain inputs st).2 = true) :
    (∃ pre, (runMain inputs st).1 =
      pre ++ [MainEvent.cameraReleased, MainEvent.windowsDestroyed]) ∧
    ((runLoop inputs st).2 = some ExitKind.exception →
      MainEvent.errorTracePrinted ∈ (runMain inputs st).1) := by
  rcases hr : runLoop inputs st with ⟨evs, ex⟩
  unfold runMain at h ⊢
  rw [hr] at h ⊢
  rcases ex with _ | ek
  · simp at h
  · cases ek
    · refine ⟨⟨evs, rfl⟩, ?_⟩
      intro hx
      simp at hx
    · refine ⟨⟨evs ++ [MainEvent.errorTracePrinted], by simp⟩, ?_⟩
      intro _
      simp

/-- Witness for C9: a single iteration whose body raises; the process ends
and the trace is the diagnostic print followed by camera release and window
destruction. -/
theorem cleanup_witness :
    ((runMain [wCrashInput] wStateNoRef).2 = true) ∧
    ((∃ pre, (runMain [wCrashInput] wStateNoRef).1 =
        pre ++ [MainEvent.cameraReleased, MainEvent.windowsDestroyed]) ∧
     ((runLoop [wCrashInput] wStateNoRef).2 = some ExitKind.exception →
        MainEvent.errorTracePrinted ∈ (runMain [wCrashInput] wStateNoRef).1)) :=
  ⟨by simp [runMain, runLoop, wCrashInput],
   cleanup_on_exit [wCrashInput] wStateNoRef (by simp [runMain, runLoop, wCrashInput])⟩

end FaceDetection
